import Mathlib

/-!
Verification of the flareprox local proxy core (flareprox.py).

This file shallowly embeds the request-forwarding core of the repository:
endpoint selection (`_choose_endpoint`), target-URL extraction and request
forwarding (`ProxyRequestHandler._forward`), the CONNECT tunnel entry
(`ProxyRequestHandler.do_CONNECT`), and the supervisor stop path
(`main`, branch `serve-stop`, together with `_read_pid` / `_remove_pid`).

Conventions.  Python byte strings and text strings are both modelled as
Lean `String` (ASCII payloads; `strLen` is the byte count).  Randomness,
the upstream HTTP call, the CONNECT dial and `os.kill` are oracles passed
as explicit arguments.  Fallible paths (an unhandled `int()` exception)
return `none`.
-/

/-! ## Character-list string helpers -/

def strOf (cs : List Char) : String := String.mk cs

def strLen (s : String) : Nat := s.data.length

def strTake (s : String) (n : Nat) : String := strOf (s.data.take n)

def strDrop (s : String) (n : Nat) : String := strOf (s.data.drop n)

def lowerStr (s : String) : String := strOf (s.data.map Char.toLower)

def listStartsWith : List Char → List Char → Bool
  | [], _ => true
  | _ :: _, [] => false
  | p :: ps, c :: cs => p = c && listStartsWith ps cs

def strStartsWith (s pre : String) : Bool := listStartsWith pre.data s.data

/-- Split a character list at every occurrence of `sep`, keeping empty
pieces, as Python `str.split(sep)` does on a one-character separator. -/
def splitChar (sep : Char) : List Char → List (List Char)
  | [] => [[]]
  | c :: rest =>
    if c = sep then [] :: splitChar sep rest
    else
      match splitChar sep rest with
      | [] => [[c]]
      | g :: gs => (c :: g) :: gs

/-- Index of the first occurrence of `c` at position `start` or later. -/
def findIdxFrom (cs : List Char) (c : Char) (start : Nat) : Option Nat :=
  match (cs.drop start).findIdx? (· = c) with
  | none => none
  | some i => some (start + i)

/-- Index of the last occurrence of `c`, Python `str.rfind`. -/
def rfindIdx (cs : List Char) (c : Char) : Option Nat :=
  match (cs.reverse.findIdx? (· = c)) with
  | none => none
  | some i => some (cs.length - 1 - i)

/-! ## Python primitives -/

/-- ASCII whitespace stripped by Python `str.strip()` / `int()`. -/
def isPyWs (c : Char) : Bool :=
  c = ' ' || c = '\t' || c = '\n' || c = '\r' || c.toNat = 11 || c.toNat = 12

def stripWs (cs : List Char) : List Char :=
  ((cs.dropWhile isPyWs).reverse.dropWhile isPyWs).reverse

def pyStrip (s : String) : String := strOf (stripWs s.data)

/-- Digit-run acceptor for Python `int()`: digits with single interior
underscores.  `needDigit` is true at the start and after an underscore. -/
def pyDigitsGo : List Char → Bool → Nat → Option Nat
  | [], needDigit, acc => if needDigit then none else some acc
  | c :: rest, needDigit, acc =>
    if c.isDigit then pyDigitsGo rest false (acc * 10 + (c.toNat - 48))
    else if c = '_' then
      if needDigit then none else pyDigitsGo rest true acc
    else none

def pyDigitsVal (cs : List Char) : Option Nat := pyDigitsGo cs true 0

/-- Python `int(s)` on ASCII decimal text: strip whitespace, optional
sign, digit run (underscore separators allowed); `none` models the
`ValueError` raised on anything else. -/
def pyParseInt (s : String) : Option Int :=
  match stripWs s.data with
  | '+' :: rest => (pyDigitsVal rest).map Int.ofNat
  | '-' :: rest => (pyDigitsVal rest).map (fun n => -(n : Int))
  | rest => (pyDigitsVal rest).map Int.ofNat

def isHexDigitCh (c : Char) : Bool :=
  c.isDigit || ('a' ≤ c && c ≤ 'f') || ('A' ≤ c && c ≤ 'F')

def hexVal (c : Char) : Nat :=
  if c.isDigit then c.toNat - 48
  else if 'a' ≤ c && c ≤ 'f' then c.toNat - 87
  else c.toNat - 55

/-- `urllib.parse.unquote` restricted to single-byte escapes: a `%`
followed by two hex digits decodes to that byte; malformed escapes stay
literal. -/
def unquoteChars : List Char → List Char
  | [] => []
  | '%' :: a :: b :: rest =>
    if isHexDigitCh a && isHexDigitCh b then
      Char.ofNat (hexVal a * 16 + hexVal b) :: unquoteChars rest
    else '%' :: unquoteChars (a :: b :: rest)
  | c :: rest => c :: unquoteChars rest

/-- Uppercase hex digit, used by `quote`. -/
def hexDigitU (n : Nat) : Char :=
  if n < 10 then Char.ofNat (48 + n) else Char.ofNat (55 + n)

/-- Lowercase hex digit, used by `json.dumps` unicode escapes. -/
def hexDigitL (n : Nat) : Char :=
  if n < 10 then Char.ofNat (48 + n) else Char.ofNat (87 + n)

/-- UTF-8 bytes of a code point, as Python encodes before quoting. -/
def utf8Bytes (n : Nat) : List Nat :=
  if n < 128 then [n]
  else if n < 2048 then [192 + n / 64, 128 + n % 64]
  else if n < 65536 then [224 + n / 4096, 128 + (n / 64) % 64, 128 + n % 64]
  else [240 + n / 262144, 128 + (n / 4096) % 64, 128 + (n / 64) % 64, 128 + n % 64]

/-- Characters `urllib.parse.quote` never escapes. -/
def quoteAlwaysSafe (c : Char) : Bool :=
  c.isAlpha || c.isDigit || c = '_' || c = '.' || c = '-' || c = '~'

def quoteCharL (c : Char) : List Char :=
  if quoteAlwaysSafe c then [c]
  else ((utf8Bytes c.toNat).map (fun b => ['%', hexDigitU (b / 16), hexDigitU (b % 16)])).flatten

/-- `urllib.parse.quote(s, safe='')` as used at flareprox.py:1107. -/
def pyQuote (s : String) : String := strOf ((s.data.map quoteCharL).flatten)

/-- One character of a `json.dumps` string literal (`ensure_ascii` on). -/
def jsonEscChar (c : Char) : List Char :=
  if c = '"' then ['\\', '"']
  else if c = '\\' then ['\\', '\\']
  else if c = '\n' then ['\\', 'n']
  else if c = '\t' then ['\\', 't']
  else if c = '\r' then ['\\', 'r']
  else if c.toNat = 8 then ['\\', 'b']
  else if c.toNat = 12 then ['\\', 'f']
  else if c.toNat < 32 || c.toNat > 126 then
    if c.toNat < 65536 then
      ['\\', 'u', hexDigitL (c.toNat / 4096), hexDigitL ((c.toNat / 256) % 16),
       hexDigitL ((c.toNat / 16) % 16), hexDigitL (c.toNat % 16)]
    else
      let m := c.toNat - 65536
      let hi := 55296 + m / 1024
      let lo := 56320 + m % 1024
      ['\\', 'u', hexDigitL (hi / 4096), hexDigitL ((hi / 256) % 16),
       hexDigitL ((hi / 16) % 16), hexDigitL (hi % 16),
       '\\', 'u', hexDigitL (lo / 4096), hexDigitL ((lo / 256) % 16),
       hexDigitL ((lo / 16) % 16), hexDigitL (lo % 16)]
  else [c]

/-- `json.dumps` rendering of a string value, quotes included. -/
def jsonStr (s : String) : String :=
  strOf ('"' :: (s.data.map jsonEscChar).flatten ++ ['"'])

/-! ## Endpoint pool selection (flareprox.py:1041-1049)

`_choose_endpoint(endpoints, policy, state)` guards the empty pool, then
indexes `endpoints[idx % len(endpoints)]` for the round-robin policy and
stores `(idx + 1) % len(endpoints)` back into the state dict, or calls
`random.choice` (modelled by the `randIdx` oracle, reduced modulo the
pool size) for any other policy.  An endpoint is a dict whose `url` key
may be absent, hence `url : Option String` mirroring `.get("url")`. -/

structure Endpoint where
  url : Option String
deriving DecidableEq

def _choose_endpoint (endpoints : List Endpoint) (policy : String)
    (idx randIdx : Nat) : Option String × Nat :=
  match endpoints with
  | [] => (none, idx)
  | e :: es =>
    if policy = "roundrobin" then
      (((e :: es).get ⟨idx % (es.length + 1), Nat.mod_lt _ (Nat.succ_pos _)⟩).url,
       (idx + 1) % (es.length + 1))
    else
      (((e :: es).get ⟨randIdx % (es.length + 1), Nat.mod_lt _ (Nat.succ_pos _)⟩).url,
       idx)

/-- Cursor value before the k-th serialized round-robin call; the state
dict starts empty, so `state.get("idx", 0)` is `0` at call 0. -/
def rrState (pool : List Endpoint) : Nat → Nat
  | 0 => 0
  | k + 1 => (_choose_endpoint pool "roundrobin" (rrState pool k) 0).2

/-- Result of the k-th serialized round-robin call (0-based). -/
def rrCall (pool : List Endpoint) (k : Nat) : Option String :=
  (_choose_endpoint pool "roundrobin" (rrState pool k) 0).1

/-! ## urllib.parse.urlparse (subset used by `_forward`)

Mirrors CPython `urlsplit` + the params split of `urlparse`: strip the
unsafe bytes tab/CR/LF, detect a scheme (colon at a positive index, first
character alphabetic, all scheme characters before it), take the netloc
after a leading `//` up to the first of `/?#`, split the fragment at the
first `#`, split the query at the first `?`, and for schemes that use
params split `;params` off the last path segment. -/

structure UrlParts where
  scheme : String
  netloc : String
  path : String
  query : String
  fragment : String
deriving DecidableEq

def isSchemeChar (c : Char) : Bool :=
  c.isAlpha || c.isDigit || c = '+' || c = '-' || c = '.'

def uses_params : List String :=
  ["", "ftp", "hdl", "prospero", "http", "imap", "https", "shttp", "rtsp",
   "rtspu", "sip", "sips", "mms", "sftp", "tel"]

/-- `_splitparams`: drop `;params` from the last path segment. -/
def splitParamsPath (cs : List Char) : List Char :=
  if cs.contains '/' then
    match rfindIdx cs '/' with
    | none => cs
    | some s =>
      match findIdxFrom cs ';' s with
      | none => cs
      | some i => cs.take i
  else
    match findIdxFrom cs ';' 0 with
    | none => cs
    | some i => cs.take i

def splitSchemeCs (cs : List Char) : List Char × List Char :=
  let pre := cs.takeWhile (· ≠ ':')
  let rest := cs.dropWhile (· ≠ ':')
  match rest with
  | [] => ([], cs)
  | _ :: after =>
    match pre with
    | [] => ([], cs)
    | c0 :: _ =>
      if c0.isAlpha && pre.all isSchemeChar then (pre.map Char.toLower, after)
      else ([], cs)

def urlparse (url : String) : UrlParts :=
  let cs := url.data.filter (fun c => !(c = '\t' || c = '\r' || c = '\n'))
  let (schemeCs, cs) := splitSchemeCs cs
  let (netlocCs, cs) :=
    if listStartsWith ['/', '/'] cs then
      let body := cs.drop 2
      (body.takeWhile (fun c => !(c = '/' || c = '?' || c = '#')),
       body.dropWhile (fun c => !(c = '/' || c = '?' || c = '#')))
    else ([], cs)
  let (cs, fragCs) :=
    (cs.takeWhile (· ≠ '#'),
     match cs.dropWhile (· ≠ '#') with | [] => [] | _ :: t => t)
  let (pathCs, queryCs) :=
    (cs.takeWhile (· ≠ '?'),
     match cs.dropWhile (· ≠ '?') with | [] => [] | _ :: t => t)
  let pathCs :=
    if uses_params.contains (strOf schemeCs) && pathCs.contains ';' then
      splitParamsPath pathCs
    else pathCs
  { scheme := strOf schemeCs, netloc := strOf netlocCs, path := strOf pathCs,
    query := strOf queryCs, fragment := strOf fragCs }

/-! ## urllib.parse.parse_qs (first value of a key) -/

/-- Decode one query token: `+` to space, then percent-decode. -/
def qsDecode (cs : List Char) : String :=
  strOf (unquoteChars (cs.map (fun c => if c = '+' then ' ' else c)))

/-- `parse_qsl(qs)` with default arguments: split on `&`, skip empty
tokens, skip tokens without `=` and tokens with an empty value
(`keep_blank_values=False`), decode names and values. -/
def parse_qsl (qs : String) : List (String × String) :=
  if qs.data = [] then []
  else
    (splitChar '&' qs.data).filterMap fun nv =>
      if nv = [] then none
      else
        let n := nv.takeWhile (· ≠ '=')
        match nv.dropWhile (· ≠ '=') with
        | [] => none
        | _ :: v => if v = [] then none else some (qsDecode n, qsDecode v)

/-- `parse_qs(qs).get(name, [None])[0]`: first value bound to `name`. -/
def qsFirstValue (qs : String) (name : String) : Option String :=
  ((parse_qsl qs).find? (fun kv => kv.1 = name)).map (·.2)

/-! ## Case-insensitive header view (email.message.Message) -/

/-- `self.headers.get(name)`: first header whose name matches
case-insensitively. -/
def ciGet (headers : List (String × String)) (name : String) : Option String :=
  (headers.find? (fun kv => lowerStr kv.1 = lowerStr name)).map (·.2)

/-! ## Request forwarding (ProxyRequestHandler._forward, flareprox.py:1068-1145) -/

structure InboundRequest where
  command : String
  path : String
  headers : List (String × String)
  body : String
deriving DecidableEq

structure HttpResponse where
  status : Nat
  headers : List (String × String)
  body : String
deriving DecidableEq

structure OutboundRequest where
  method : String
  url : String
  headers : List (String × String)
  data : Option String
deriving DecidableEq

structure UpstreamResponse where
  status_code : Nat
  headers : List (String × String)
  content : String
deriving DecidableEq

inductive UpstreamResult where
  | ok (resp : UpstreamResponse)
  | netErr (msg : String)
deriving DecidableEq

/-- Every field the `_forward` body observes or mutates: the resolved
target and chosen worker (local variables `target`, `worker`), the
outbound attempts actually issued, the response written to the client,
the `_access_log` arguments, and the round-robin cursor after the
request (`context["state"]["idx"]`). -/
structure ForwardOutcome where
  target : Option String
  worker : Option String
  outbound : List OutboundRequest
  response : HttpResponse
  logStatus : Nat
  logBytes : Nat
  nextIdx : Nat
deriving DecidableEq

/-- True when the parsed path begins with `/http://` or `/https://`. -/
def pathEmbedsUrl (p : String) : Bool :=
  strStartsWith p "/http://" || strStartsWith p "/https://"

/-- `parsed.scheme in ("http", "https") and parsed.netloc`. -/
def isAbsHttpTarget (parts : UrlParts) : Bool :=
  (parts.scheme = "http" || parts.scheme = "https") && !(parts.netloc = "")

/-- Final fallback of the target resolution: the `X-Target-URL` header,
accepted only when present and non-empty (`if hdr:`). -/
def extractTargetHeader (req : InboundRequest) : Option String :=
  match ciGet req.headers "X-Target-URL" with
  | some hd => if hd = "" then none else some hd
  | none => none

/-- Target-URL resolution of `_forward` (flareprox.py:1069-1084).  Each
assignment in the source only ever stores a non-empty string, so the
`if not target` chain is the nested conditional below; the `if u:` and
`if hdr:` truthiness tests are kept as emptiness checks. -/
def extractTarget (req : InboundRequest) : Option String :=
  let parsed := urlparse req.path
  if pathEmbedsUrl parsed.path then some (strDrop parsed.path 1)
  else if isAbsHttpTarget parsed then some req.path
  else
    match qsFirstValue parsed.query "url" with
    | some u => if u = "" then extractTargetHeader req else some u
    | none => extractTargetHeader req

def noTargetBody : String := "\x7b\"error\": \"No target URL specified\"\x7d"

def noWorkerBody : String := "\x7b\"error\": \"No worker endpoints available\"\x7d"

def netErrBody (msg : String) : String :=
  "\x7b\"error\": \"Proxy request failed\", \"message\": " ++ jsonStr msg ++ "\x7d"

def jsonErrHeaders (body : String) : List (String × String) :=
  [("Content-Type", "application/json"), ("Content-Length", toString (strLen body))]

/-- 400 response of flareprox.py:1086-1094. -/
def noTargetOutcome (idx : Nat) : ForwardOutcome :=
  { target := none, worker := none, outbound := [],
    response := { status := 400, headers := jsonErrHeaders noTargetBody, body := noTargetBody },
    logStatus := 400, logBytes := strLen noTargetBody, nextIdx := idx }

/-- 503 response of flareprox.py:1097-1105 (the cursor may already have
advanced, since `_choose_endpoint` ran before the `not worker` test). -/
def noWorkerOutcome (target : String) (idx2 : Nat) : ForwardOutcome :=
  { target := some target, worker := none, outbound := [],
    response := { status := 503, headers := jsonErrHeaders noWorkerBody, body := noWorkerBody },
    logStatus := 503, logBytes := strLen noWorkerBody, nextIdx := idx2 }

/-- Headers stripped from the inbound request (flareprox.py:1109). -/
def requestExclude : List String :=
  ["host", "connection", "proxy-connection", "keep-alive", "transfer-encoding", "upgrade"]

/-- `fwd_headers` loop of flareprox.py:1110-1114. -/
def fwdHeaders (headers : List (String × String)) : List (String × String) :=
  headers.filter (fun kv => !(requestExclude.contains (lowerStr kv.1)))

/-- `self.headers.get("Content-Length", "0") or "0"`. -/
def contentLengthRaw (headers : List (String × String)) : String :=
  let v := (ciGet headers "Content-Length").getD "0"
  if v = "" then "0" else v

/-- Body read of flareprox.py:1116-1120: no body for GET/HEAD, else read
`Content-Length` bytes when positive.  `none` models the uncaught
`ValueError` of `int()` on a malformed Content-Length header. -/
def requestBodyData (req : InboundRequest) : Option (Option String) :=
  if req.command = "GET" || req.command = "HEAD" then some none
  else
    match pyParseInt (contentLengthRaw req.headers) with
    | none => none
    | some l => some (if 0 < l then some (strTake req.body l.toNat) else none)

/-- Headers stripped from the upstream response (flareprox.py:1126-1131):
`transfer-encoding`, `content-encoding`, and `content-length`. -/
def respKeptHeaders (headers : List (String × String)) : List (String × String) :=
  headers.filter (fun kv =>
    !(lowerStr kv.1 = "transfer-encoding" || lowerStr kv.1 = "content-encoding" ||
      lowerStr kv.1 = "content-length"))

/-- Success relay of flareprox.py:1122-1137. -/
def okOutcome (target worker : String) (ob : OutboundRequest)
    (resp : UpstreamResponse) (idx2 : Nat) : ForwardOutcome :=
  { target := some target, worker := some worker, outbound := [ob],
    response := { status := resp.status_code,
                  headers := respKeptHeaders resp.headers ++
                    [("Content-Length", toString (strLen resp.content))],
                  body := resp.content },
    logStatus := resp.status_code, logBytes := strLen resp.content, nextIdx := idx2 }

/-- 502 path of flareprox.py:1138-1145. -/
def netErrOutcome (target worker : String) (ob : OutboundRequest)
    (msg : String) (idx2 : Nat) : ForwardOutcome :=
  { target := some target, worker := some worker, outbound := [ob],
    response := { status := 502, headers := jsonErrHeaders (netErrBody msg),
                  body := netErrBody msg },
    logStatus := 502, logBytes := strLen (netErrBody msg), nextIdx := idx2 }

/-- flareprox.py:1107-1145 once a target and a worker URL are fixed. -/
def forwardWithWorker (req : InboundRequest) (upstream : UpstreamResult)
    (target worker : String) (idx2 : Nat) : Option ForwardOutcome :=
  match requestBodyData req with
  | none => none
  | some d =>
    let ob : OutboundRequest :=
      { method := req.command, url := worker ++ "?url=" ++ pyQuote target,
        headers := fwdHeaders req.headers, data := d }
    match upstream with
    | .ok resp => some (okOutcome target worker ob resp idx2)
    | .netErr msg => some (netErrOutcome target worker ob msg idx2)

/-- flareprox.py:1096-1145 once the target URL is resolved: choose an
endpoint, answer 503 on a falsy worker URL, otherwise issue the call. -/
def forwardWithTarget (req : InboundRequest) (endpoints : List Endpoint)
    (policy : String) (idx randIdx : Nat) (upstream : UpstreamResult)
    (target : String) : Option ForwardOutcome :=
  let chosen := _choose_endpoint endpoints policy idx randIdx
  match chosen.1 with
  | none => some (noWorkerOutcome target chosen.2)
  | some worker =>
    if worker = "" then some (noWorkerOutcome target chosen.2)
    else forwardWithWorker req upstream target worker chosen.2

/-- `ProxyRequestHandler._forward` (flareprox.py:1068-1145). -/
def forwardRequest (req : InboundRequest) (endpoints : List Endpoint)
    (policy : String) (idx randIdx : Nat) (upstream : UpstreamResult) :
    Option ForwardOutcome :=
  match extractTarget req with
  | none => some (noTargetOutcome idx)
  | some target => forwardWithTarget req endpoints policy idx randIdx upstream target

/-! ## CONNECT tunnel entry (ProxyRequestHandler.do_CONNECT, flareprox.py:1165-1212) -/

inductive DialResult where
  | ok
  | err (msg : String)
deriving DecidableEq

/-- What `do_CONNECT` observably does before and around the relay loop:
the response status, whether `socket.create_connection` was attempted,
whether a tunnel was established, which pool endpoints were contacted
(the handler never reads `context["endpoints"]`, so always `[]`), and
the byte count handed to `_access_log`. -/
structure ConnectOutcome where
  status : Nat
  dialAttempted : Bool
  tunnelEstablished : Bool
  endpointCalls : List String
  logBytes : Nat
deriving DecidableEq

/-- `self.path.split(":", 1)` followed by `int(port_str)`; `none` models
the exception caught at flareprox.py:1169 (missing colon makes the
two-element unpacking fail, a non-numeric port makes `int` fail). -/
def connectParseTarget (path : String) : Option (String × Int) :=
  let host := path.data.takeWhile (· ≠ ':')
  match path.data.dropWhile (· ≠ ':') with
  | [] => none
  | _ :: portCs => (pyParseInt (strOf portCs)).map (fun p => (strOf host, p))

/-- `do_CONNECT`: parse `host:port` (400 on failure), dial directly (502
on failure), else relay; `relayedBytes` is the upstream-to-client byte
count accumulated by the relay loop, logged with status 200. -/
def do_CONNECT (path : String) (dial : DialResult) (relayedBytes : Nat) :
    ConnectOutcome :=
  match connectParseTarget path with
  | none =>
    { status := 400, dialAttempted := false, tunnelEstablished := false,
      endpointCalls := [], logBytes := 0 }
  | some _ =>
    match dial with
    | .err _ =>
      { status := 502, dialAttempted := true, tunnelEstablished := false,
        endpointCalls := [], logBytes := 0 }
    | .ok =>
      { status := 200, dialAttempted := true, tunnelEstablished := true,
        endpointCalls := [], logBytes := relayedBytes }

/-! ## Supervisor stop (flareprox.py:1394-1404 with _read_pid / _remove_pid) -/

inductive KillResult where
  | ok
  | err (msg : String)
deriving DecidableEq

/-- Observable effect of the `serve-stop` branch: the message printed,
the pids passed to `os.kill(pid, SIGTERM)`, and the marker-file state
afterwards (`none` = file absent). -/
structure StopOutcome where
  message : String
  killAttempts : List Int
  marker : Option String
deriving DecidableEq

/-- `_read_pid` (flareprox.py:1236-1244): `none` when the marker file is
absent or its stripped content does not parse as an integer. -/
def readPidFile (marker : Option String) : Option Int :=
  marker.bind (fun s => pyParseInt (pyStrip s))

/-- `serve-stop` (flareprox.py:1394-1404).  `if not pid` is Python
truthiness, so a parsed pid of 0 is also reported as no PID file; on a
kill exception `_remove_pid` is never reached, leaving the marker. -/
def serve_stop (marker : Option String) (kill : Int → KillResult) : StopOutcome :=
  match readPidFile marker with
  | none => { message := "No PID file found", killAttempts := [], marker := marker }
  | some pid =>
    if pid = 0 then
      { message := "No PID file found", killAttempts := [], marker := marker }
    else
      match kill pid with
      | .ok => { message := "Server stopped", killAttempts := [pid], marker := none }
      | .err e =>
        { message := "Failed to stop server: " ++ e, killAttempts := [pid],
          marker := marker }

/-- Substring test used to state that a piece of text is absent. -/
def listHasSub (needle : List Char) : List Char → Bool
  | [] => listStartsWith needle []
  | c :: t => listStartsWith needle (c :: t) || listHasSub needle t

def strContainsSub (hay needle : String) : Bool := listHasSub needle.data hay.data

/-! ## Theorems -/

theorem choose_rr_cons (e : Endpoint) (es : List Endpoint) (idx rnd : Nat) :
    _choose_endpoint (e :: es) "roundrobin" idx rnd =
      (((e :: es).get ⟨idx % (es.length + 1), Nat.mod_lt _ (Nat.succ_pos _)⟩).url,
       (idx + 1) % (es.length + 1)) := by
  simp [_choose_endpoint]

theorem rrState_mod (e : Endpoint) (es : List Endpoint) (k : Nat) :
    rrState (e :: es) k = k % (es.length + 1) := by
  induction k with
  | zero => simp [rrState]
  | succ k ih =>
    rw [rrState, choose_rr_cons, ih]
    exact Nat.mod_add_mod k (es.length + 1) 1

/-- Claim C1: for every non-empty endpoint pool, serialized round-robin
selection starts at index 0 and cycles: the k-th call (0-based) returns
the `url` of `pool[k % len(pool)]`. -/
theorem roundrobin_cyclic_order (pool : List Endpoint) (h : pool ≠ []) (k : Nat) :
    rrCall pool k = (pool[k % pool.length]?).bind Endpoint.url := by
  match pool with
  | [] => exact absurd rfl h
  | e :: es =>
    rw [rrCall, rrState_mod, choose_rr_cons]
    have hmm : k % (es.length + 1) % (es.length + 1) = k % (es.length + 1) :=
      Nat.mod_mod_of_dvd k dvd_rfl
    have hlt : k % (es.length + 1) < (e :: es).length := Nat.mod_lt _ (Nat.succ_pos _)
    simp only [List.length_cons]
    rw [List.getElem?_eq_getElem hlt]
    simp only [List.get_eq_getElem, hmm, Option.some_bind]

/-- Witness for C1: the pool `[A, B, C]` called five times yields
`A, B, C, A, B`; shown here at call 4 (the fifth), which returns `B`
through the theorem. -/
theorem roundrobin_cyclic_order_witness :
    rrCall [⟨some "A"⟩, ⟨some "B"⟩, ⟨some "C"⟩] 4 = some "B" := by
  have h := roundrobin_cyclic_order [⟨some "A"⟩, ⟨some "B"⟩, ⟨some "C"⟩] (by decide) 4
  simpa using h

/-- Claim C10: endpoint selection is total and keeps its cursor in
range: the empty pool returns the empty result for every policy without
touching any index; a non-empty pool indexed round-robin uses exactly
`cursor % len(pool)` for an arbitrary stored cursor, and the stored
cursor afterwards is `(cursor + 1) % len(pool)`, which lies below
`len(pool)`; the random policy likewise stays in bounds and leaves the
cursor untouched. -/
theorem choose_endpoint_total_invariant :
    (∀ (policy : String) (idx rnd : Nat),
       _choose_endpoint [] policy idx rnd = (none, idx)) ∧
    (∀ (pool : List Endpoint), pool ≠ [] → ∀ (idx rnd : Nat),
       (_choose_endpoint pool "roundrobin" idx rnd).1 =
         (pool[idx % pool.length]?).bind Endpoint.url ∧
       (_choose_endpoint pool "roundrobin" idx rnd).2 = (idx + 1) % pool.length ∧
       (_choose_endpoint pool "roundrobin" idx rnd).2 < pool.length) ∧
    (∀ (pool : List Endpoint), pool ≠ [] → ∀ (policy : String) (idx rnd : Nat),
       policy ≠ "roundrobin" →
       (_choose_endpoint pool policy idx rnd).1 =
         (pool[rnd % pool.length]?).bind Endpoint.url ∧
       (_choose_endpoint pool policy idx rnd).2 = idx) := by
  refine ⟨fun _ _ _ => rfl, ?_, ?_⟩
  · intro pool h idx rnd
    match pool with
    | [] => exact absurd rfl h
    | e :: es =>
      rw [choose_rr_cons]
      have hlt : idx % (es.length + 1) < (e :: es).length := Nat.mod_lt _ (Nat.succ_pos _)
      refine ⟨?_, rfl, Nat.mod_lt _ (Nat.succ_pos _)⟩
      simp only [List.length_cons]
      rw [List.getElem?_eq_getElem hlt]
      simp only [List.get_eq_getElem, Option.some_bind]
  · intro pool h policy idx rnd hp
    match pool with
    | [] => exact absurd rfl h
    | e :: es =>
      have hlt : rnd % (es.length + 1) < (e :: es).length := Nat.mod_lt _ (Nat.succ_pos _)
      constructor
      · show (_choose_endpoint (e :: es) policy idx rnd).1 = _
        simp only [_choose_endpoint, if_neg hp, List.length_cons]
        rw [List.getElem?_eq_getElem hlt]
        simp only [List.get_eq_getElem, Option.some_bind]
      · show (_choose_endpoint (e :: es) policy idx rnd).2 = idx
        simp [_choose_endpoint, if_neg hp]

/-- Witness for C10 at a singleton pool with an arbitrary large cursor. -/
theorem choose_endpoint_total_invariant_witness :
    _choose_endpoint [] "roundrobin" 5 0 = (none, 5) ∧
    (_choose_endpoint [⟨some "A"⟩] "roundrobin" 7 0).1 = some "A" ∧
    (_choose_endpoint [⟨some "A"⟩] "roundrobin" 7 0).2 = 0 := by
  have h := (choose_endpoint_total_invariant.2.1) [⟨some "A"⟩] (by decide) 7 0
  exact ⟨(choose_endpoint_total_invariant.1) "roundrobin" 5 0,
    by rw [h.1]; decide, by rw [h.2.1]; decide⟩

/-- Claim C5: an empty pool makes both selection policies return the
empty result, and the Forwarder (given any request whose target URL
resolved) answers 503 with the error body, issuing no outbound call. -/
theorem empty_pool_response (policy : String) (idx rnd : Nat)
    (req : InboundRequest) (upstream : UpstreamResult) (t : String)
    (ht : extractTarget req = some t) :
    _choose_endpoint [] policy idx rnd = (none, idx) ∧
    forwardRequest req [] policy idx rnd upstream = some (noWorkerOutcome t idx) ∧
    (noWorkerOutcome t idx).response.status = 503 ∧
    (noWorkerOutcome t idx).response.body = noWorkerBody ∧
    (noWorkerOutcome t idx).outbound = [] := by
  refine ⟨rfl, ?_, rfl, rfl, rfl⟩
  simp [forwardRequest, ht, forwardWithTarget, _choose_endpoint]

/-- Concrete GET request carrying its target in the `url` query parameter. -/
def reqQueryTarget : InboundRequest :=
  { command := "GET", path := "/?url=https://t.example/", headers := [], body := "" }

/-- Witness for C5: concrete GET with a query target over the empty pool. -/
theorem empty_pool_response_witness :
    forwardRequest reqQueryTarget [] "random" 0 0 (.netErr "unused") =
      some (noWorkerOutcome "https://t.example/" 0) ∧
    (noWorkerOutcome "https://t.example/" 0).response.status = 503 := by
  have h := empty_pool_response "random" 0 0 reqQueryTarget
    (.netErr "unused") "https://t.example/" (by decide)
  exact ⟨h.2.1, h.2.2.1⟩

/-- The outbound request `_forward` builds at flareprox.py:1107-1123. -/
def mkOutbound (req : InboundRequest) (t w : String) (d : Option String) :
    OutboundRequest :=
  { method := req.command, url := w ++ "?url=" ++ pyQuote t,
    headers := fwdHeaders req.headers, data := d }

theorem fwdHeaders_not_excluded (headers : List (String × String)) :
    ∀ kv ∈ fwdHeaders headers, requestExclude.contains (lowerStr kv.1) = false := by
  intro kv hkv
  have h := (List.mem_filter.mp hkv).2
  simpa using h

theorem fwdHeaders_no_connection (headers : List (String × String)) :
    ∀ kv ∈ fwdHeaders headers, lowerStr kv.1 ≠ "connection" := by
  intro kv hkv hc
  have h := fwdHeaders_not_excluded headers kv hkv
  rw [hc] at h
  exact absurd h (by decide)

theorem requestBodyData_gethead (req : InboundRequest) (d : Option String)
    (hd : requestBodyData req = some d)
    (h : req.command = "GET" ∨ req.command = "HEAD") : d = none := by
  have hb : (req.command = "GET" || req.command = "HEAD") = true := by
    rcases h with h | h <;> simp [h]
  rw [requestBodyData, if_pos hb] at hd
  exact (Option.some_inj.mp hd).symm

theorem requestBodyData_other (req : InboundRequest) (d : Option String)
    (hd : requestBodyData req = some d)
    (h : ¬(req.command = "GET" ∨ req.command = "HEAD")) (l : Int)
    (hl : pyParseInt (contentLengthRaw req.headers) = some l) :
    d = if 0 < l then some (strTake req.body l.toNat) else none := by
  have hb : (req.command = "GET" || req.command = "HEAD") = false := by
    rcases Decidable.em (req.command = "GET") with h1 | h1
    · exact absurd (Or.inl h1) h
    rcases Decidable.em (req.command = "HEAD") with h2 | h2
    · exact absurd (Or.inr h2) h
    simp [h1, h2]
  rw [requestBodyData] at hd
  rw [if_neg (by simp [hb]), hl] at hd
  exact (Option.some_inj.mp hd).symm

theorem forwardRequest_eq_withWorker (req : InboundRequest)
    (endpoints : List Endpoint) (policy : String) (idx rnd : Nat)
    (upstream : UpstreamResult) (t : String) (ht : extractTarget req = some t)
    (w : String) (hw : (_choose_endpoint endpoints policy idx rnd).1 = some w)
    (hw2 : w ≠ "") :
    forwardRequest req endpoints policy idx rnd upstream =
      forwardWithWorker req upstream t w (_choose_endpoint endpoints policy idx rnd).2 := by
  rw [forwardRequest, ht]
  simp [forwardWithTarget, hw, hw2]

/-- Claim C3: whenever a target is resolved and a (non-empty) worker URL
chosen, the single outbound request is
`{worker}?url=<percent-encoded target>` with the inbound method, the
inbound headers minus the case-insensitive exclusion set
(host / connection / proxy-connection / keep-alive / transfer-encoding /
upgrade, so in particular no `Connection` header survives), the
Content-Length-delimited body for non-GET/HEAD methods, and no body at
all for GET/HEAD. -/
theorem outbound_request_shape (req : InboundRequest) (endpoints : List Endpoint)
    (policy : String) (idx rnd : Nat) (upstream : UpstreamResult)
    (t : String) (ht : extractTarget req = some t)
    (w : String) (hw : (_choose_endpoint endpoints policy idx rnd).1 = some w)
    (hw2 : w ≠ "") (d : Option String) (hd : requestBodyData req = some d) :
    ∃ out, forwardRequest req endpoints policy idx rnd upstream = some out ∧
      out.outbound = [mkOutbound req t w d] ∧
      mkOutbound req t w d = { method := req.command, url := w ++ "?url=" ++ pyQuote t,
                               headers := fwdHeaders req.headers, data := d } ∧
      (∀ kv ∈ fwdHeaders req.headers,
         requestExclude.contains (lowerStr kv.1) = false) ∧
      (∀ kv ∈ fwdHeaders req.headers, lowerStr kv.1 ≠ "connection") ∧
      ((req.command = "GET" ∨ req.command = "HEAD") → d = none) ∧
      (¬(req.command = "GET" ∨ req.command = "HEAD") →
         ∀ l : Int, pyParseInt (contentLengthRaw req.headers) = some l →
           d = if 0 < l then some (strTake req.body l.toNat) else none) := by
  have he := forwardRequest_eq_withWorker req endpoints policy idx rnd upstream t ht w hw hw2
  cases upstream with
  | ok resp =>
    refine ⟨okOutcome t w (mkOutbound req t w d) resp
      (_choose_endpoint endpoints policy idx rnd).2, ?_, rfl, rfl,
      fwdHeaders_not_excluded req.headers, fwdHeaders_no_connection req.headers,
      requestBodyData_gethead req d hd,
      fun h l hl => requestBodyData_other req d hd h l hl⟩
    rw [he]
    simp [forwardWithWorker, hd, mkOutbound]
  | netErr msg =>
    refine ⟨netErrOutcome t w (mkOutbound req t w d) msg
      (_choose_endpoint endpoints policy idx rnd).2, ?_, rfl, rfl,
      fwdHeaders_not_excluded req.headers, fwdHeaders_no_connection req.headers,
      requestBodyData_gethead req d hd,
      fun h l hl => requestBodyData_other req d hd h l hl⟩
    rw [he]
    simp [forwardWithWorker, hd, mkOutbound]

/-- Concrete POST used to witness the outbound shape: carries a
`Connection: keep-alive` header and a 5-byte body. -/
def reqPostW : InboundRequest :=
  { command := "POST", path := "/?url=https://t.example/",
    headers := [("Connection", "keep-alive"), ("Content-Length", "5"), ("X-K", "v")],
    body := "hello" }

/-- The outbound request expected for `reqPostW`. -/
def obPostW : OutboundRequest :=
  { method := "POST", url := "https://w.example/?url=https%3A%2F%2Ft.example%2F",
    headers := [("Content-Length", "5"), ("X-K", "v")], data := some "hello" }

/-- A plain successful upstream response used by witnesses. -/
def respOkW : UpstreamResponse :=
  { status_code := 200, headers := [], content := "ok" }

/-- Witness for C3: the concrete POST is forwarded to the worker with
the Connection header stripped and the body intact. -/
theorem outbound_request_shape_witness :
    ∃ out, forwardRequest reqPostW [⟨some "https://w.example/"⟩] "roundrobin" 0 0
        (.ok respOkW) = some out ∧ out.outbound = [obPostW] := by
  obtain ⟨out, h1, h2, _⟩ := outbound_request_shape reqPostW [⟨some "https://w.example/"⟩]
    "roundrobin" 0 0 (.ok respOkW) "https://t.example/" (by decide)
    "https://w.example/" (by decide) (by decide) (some "hello") (by decide)
  refine ⟨out, h1, ?_⟩
  rw [h2]
  decide

theorem respKeptHeaders_not_excluded (headers : List (String × String)) :
    ∀ kv ∈ respKeptHeaders headers,
      lowerStr kv.1 ≠ "transfer-encoding" ∧ lowerStr kv.1 ≠ "content-encoding" ∧
      lowerStr kv.1 ≠ "content-length" := by
  intro kv hkv
  have h := (List.mem_filter.mp hkv).2
  simp at h
  exact ⟨h.1.1, h.1.2, h.2⟩

theorem respKeptHeaders_complete (headers : List (String × String)) :
    ∀ kv ∈ headers,
      lowerStr kv.1 ≠ "transfer-encoding" → lowerStr kv.1 ≠ "content-encoding" →
      lowerStr kv.1 ≠ "content-length" → kv ∈ respKeptHeaders headers := by
  intro kv hkv h1 h2 h3
  refine List.mem_filter.mpr ⟨hkv, ?_⟩
  simp [h1, h2, h3]

/-- Claim C4: a successful upstream response is relayed with the status
code verbatim, every upstream header except transfer-encoding /
content-encoding / content-length (case-insensitive), a Content-Length
equal to the exact byte length of the forwarded body, and the body
byte-for-byte. -/
theorem response_relay_shape (req : InboundRequest) (endpoints : List Endpoint)
    (policy : String) (idx rnd : Nat) (resp : UpstreamResponse)
    (t : String) (ht : extractTarget req = some t)
    (w : String) (hw : (_choose_endpoint endpoints policy idx rnd).1 = some w)
    (hw2 : w ≠ "") (d : Option String) (hd : requestBodyData req = some d) :
    ∃ out, forwardRequest req endpoints policy idx rnd (.ok resp) = some out ∧
      out.response.status = resp.status_code ∧
      out.response.body = resp.content ∧
      out.response.headers = respKeptHeaders resp.headers ++
        [("Content-Length", toString (strLen resp.content))] ∧
      (∀ kv ∈ respKeptHeaders resp.headers,
         lowerStr kv.1 ≠ "transfer-encoding" ∧ lowerStr kv.1 ≠ "content-encoding" ∧
         lowerStr kv.1 ≠ "content-length") ∧
      (∀ kv ∈ resp.headers,
         lowerStr kv.1 ≠ "transfer-encoding" → lowerStr kv.1 ≠ "content-encoding" →
         lowerStr kv.1 ≠ "content-length" → kv ∈ respKeptHeaders resp.headers) := by
  have he := forwardRequest_eq_withWorker req endpoints policy idx rnd (.ok resp) t ht w hw hw2
  refine ⟨okOutcome t w (mkOutbound req t w d) resp
    (_choose_endpoint endpoints policy idx rnd).2, ?_, rfl, rfl, rfl,
    respKeptHeaders_not_excluded resp.headers, respKeptHeaders_complete resp.headers⟩
  rw [he]
  simp [forwardWithWorker, hd, mkOutbound]

/-- A 201 upstream response with headers that must be filtered. -/
def respMixedW : UpstreamResponse :=
  { status_code := 201,
    headers := [("Transfer-Encoding", "chunked"), ("X-A", "1"), ("Content-Length", "999")],
    content := "hi" }

/-- Witness for C4: the 201 upstream response relayed to the client. -/
theorem response_relay_shape_witness :
    ∃ out, forwardRequest reqQueryTarget [⟨some "https://w.example/"⟩] "roundrobin" 0 0
        (.ok respMixedW) = some out ∧
      out.response.status = 201 ∧ out.response.body = "hi" ∧
      out.response.headers = [("X-A", "1"), ("Content-Length", "2")] := by
  obtain ⟨out, h1, h2, h3, h4, _⟩ := response_relay_shape reqQueryTarget
    [⟨some "https://w.example/"⟩] "roundrobin" 0 0 respMixedW
    "https://t.example/" (by decide) "https://w.example/" (by decide) (by decide)
    none (by decide)
  refine ⟨out, h1, h2, h3, ?_⟩
  rw [h4]
  decide

/-- Claim C6: when the single outbound attempt fails with a network
error, the client gets exactly one response: status 502 with the
structured JSON body carrying the `error` and `message` fields, and no
retry happens (the outbound attempt list has length one). -/
theorem upstream_failure_502 (req : InboundRequest) (endpoints : List Endpoint)
    (policy : String) (idx rnd : Nat) (msg : String)
    (t : String) (ht : extractTarget req = some t)
    (w : String) (hw : (_choose_endpoint endpoints policy idx rnd).1 = some w)
    (hw2 : w ≠ "") (d : Option String) (hd : requestBodyData req = some d) :
    ∃ out, forwardRequest req endpoints policy idx rnd (.netErr msg) = some out ∧
      out.response.status = 502 ∧
      out.response.body = netErrBody msg ∧
      netErrBody msg = "\x7b\"error\": \"Proxy request failed\", \"message\": " ++
        jsonStr msg ++ "\x7d" ∧
      out.outbound.length = 1 ∧
      out.logStatus = 502 := by
  have he := forwardRequest_eq_withWorker req endpoints policy idx rnd (.netErr msg) t ht w hw hw2
  refine ⟨netErrOutcome t w (mkOutbound req t w d) msg
    (_choose_endpoint endpoints policy idx rnd).2, ?_, rfl, rfl, rfl, rfl, rfl⟩
  rw [he]
  simp [forwardWithWorker, hd, mkOutbound]

/-- Witness for C6: a concrete connection failure turns into a 502 with
the structured body. -/
theorem upstream_failure_502_witness :
    ∃ out, forwardRequest reqQueryTarget [⟨some "https://w.example/"⟩] "roundrobin" 0 0
        (.netErr "Connection refused") = some out ∧
      out.response.status = 502 ∧
      out.response.body =
        "\x7b\"error\": \"Proxy request failed\", \"message\": \"Connection refused\"\x7d" ∧
      out.outbound.length = 1 := by
  obtain ⟨out, h1, h2, h3, _, h5, _⟩ := upstream_failure_502 reqQueryTarget
    [⟨some "https://w.example/"⟩] "roundrobin" 0 0 "Connection refused"
    "https://t.example/" (by decide) "https://w.example/" (by decide) (by decide)
    none (by decide)
  refine ⟨out, h1, h2, ?_, h5⟩
  rw [h3]
  decide

/-- Request whose path embeds a target URL while a `url` query parameter
and an `X-Target-URL` header are also present. -/
def reqPathQueryHeader : InboundRequest :=
  { command := "GET", path := "/https://b.example/?url=https://a.example/",
    headers := [("X-Target-URL", "https://c.example/")], body := "" }

/-- Counterexample to claim C2 as stated: with both a path-embedded URL
and a query parameter `url=https://a.example/` present, the query
parameter does NOT win — `_forward` tests the path prefix first (its
line 1072) and resolves the target to the path-embedded URL. -/
theorem target_priority_counterexample :
    qsFirstValue (urlparse reqPathQueryHeader.path).query "url" =
      some "https://a.example/" ∧
    extractTarget reqPathQueryHeader = some "https://b.example/" ∧
    extractTarget reqPathQueryHeader ≠ some "https://a.example/" := by
  refine ⟨by decide, by decide, by decide⟩

/-- Claim C2 (amended): the target URL is extracted with this priority:
(1) if the parsed request path begins with `/http://` or `/https://`,
the parsed path with the leading slash stripped (its query-string part
excluded); (2) if the request target is itself an absolute http(s) URL,
the full request target; (3) the query parameter named `url`; (4) the
`X-Target-URL` header.  In particular the query parameter still beats
the header, and if no source is present the server responds 400 with
error body "No target URL specified" and contacts no endpoint. -/
theorem target_priority_amended (req : InboundRequest) :
    (pathEmbedsUrl (urlparse req.path).path = true →
       extractTarget req = some (strDrop (urlparse req.path).path 1)) ∧
    (pathEmbedsUrl (urlparse req.path).path = false →
       isAbsHttpTarget (urlparse req.path) = true →
       extractTarget req = some req.path) ∧
    (pathEmbedsUrl (urlparse req.path).path = false →
       isAbsHttpTarget (urlparse req.path) = false →
       ∀ u, qsFirstValue (urlparse req.path).query "url" = some u → u ≠ "" →
         extractTarget req = some u) ∧
    (pathEmbedsUrl (urlparse req.path).path = false →
       isAbsHttpTarget (urlparse req.path) = false →
       qsFirstValue (urlparse req.path).query "url" = none →
       ∀ hv, ciGet req.headers "X-Target-URL" = some hv → hv ≠ "" →
         extractTarget req = some hv) ∧
    (extractTarget req = none →
       ∀ (endpoints : List Endpoint) (policy : String) (idx rnd : Nat)
         (upstream : UpstreamResult),
         forwardRequest req endpoints policy idx rnd upstream =
           some (noTargetOutcome idx) ∧
         (noTargetOutcome idx).response.status = 400 ∧
         (noTargetOutcome idx).response.body = noTargetBody ∧
         (noTargetOutcome idx).outbound = []) := by
  refine ⟨?_, ?_, ?_, ?_, ?_⟩
  · intro h1
    simp [extractTarget, h1]
  · intro h1 h2
    simp [extractTarget, h1, h2]
  · intro h1 h2 u h3 h4
    simp [extractTarget, h1, h2, h3, h4]
  · intro h1 h2 h3 hv h4 h5
    simp [extractTarget, extractTargetHeader, h1, h2, h3, h4, h5]
  · intro h endpoints policy idx rnd upstream
    exact ⟨by simp [forwardRequest, h], rfl, rfl, rfl⟩

/-- Request carrying the target only in the `url` query parameter while
an `X-Target-URL` header is also present. -/
def reqQueryHeaderOnly : InboundRequest :=
  { command := "GET", path := "/?url=https://a.example/",
    headers := [("X-Target-URL", "https://c.example/")], body := "" }

/-- Request with no target source at all. -/
def reqNoTarget : InboundRequest :=
  { command := "GET", path := "/", headers := [], body := "" }

/-- Witness for C2 (amended): the query parameter beats the header when
the path embeds no URL, and a sourceless request draws the 400. -/
theorem target_priority_amended_witness :
    extractTarget reqQueryHeaderOnly = some "https://a.example/" ∧
    forwardRequest reqNoTarget [⟨some "W"⟩] "random" 0 0 (.netErr "x") =
      some (noTargetOutcome 0) := by
  constructor
  · exact (target_priority_amended reqQueryHeaderOnly).2.2.1 (by decide) (by decide)
      "https://a.example/" (by decide) (by decide)
  · exact ((target_priority_amended reqNoTarget).2.2.2.2 (by decide)
      [⟨some "W"⟩] "random" 0 0 (.netErr "x")).1

/-- The round-trip request of claim C7: its query string binds `url` to
`https://example.com/x` and carries a separate parameter `foo=1`. -/
def reqFooQuery : InboundRequest :=
  { command := "GET", path := "/?url=https://example.com/x&foo=1",
    headers := [], body := "" }

/-- Counterexample to claim C7 as stated: `foo=1` is split off by
`parse_qs` as its own parameter, so the outbound URL is
`{endpoint}?url=https%3A%2F%2Fexample.com%2Fx` and contains no trace of
`foo=1`. -/
theorem foo_param_counterexample :
    (forwardRequest reqFooQuery [⟨some "https://w.example/"⟩] "random" 0 0
        (.ok respOkW)).map
        (fun o => (o.outbound.map OutboundRequest.url, o.response.status)) =
      some (["https://w.example/?url=https%3A%2F%2Fexample.com%2Fx"], 200) ∧
    strContainsSub "https://w.example/?url=https%3A%2F%2Fexample.com%2Fx" "foo=1" =
      false := by
  refine ⟨by decide, by decide⟩

/-- Claim C7 (amended): for the request with query string
`url=https://example.com/x&foo=1`, the extracted target is only
`https://example.com/x` — `foo=1` is parsed as a separate query
parameter and dropped, NOT preserved in the outbound call — the single
outbound URL is `{endpoint}?url=https%3A%2F%2Fexample.com%2Fx`, and on
success the endpoint's status code is returned verbatim. -/
theorem foo_param_roundtrip_amended (w : String) (hw : w ≠ "") (idx rnd : Nat)
    (resp : UpstreamResponse) :
    extractTarget reqFooQuery = some "https://example.com/x" ∧
    pyQuote "https://example.com/x" = "https%3A%2F%2Fexample.com%2Fx" ∧
    ∃ out, forwardRequest reqFooQuery [⟨some w⟩] "random" idx rnd (.ok resp) =
        some out ∧
      out.outbound.map OutboundRequest.url =
        [w ++ "?url=" ++ pyQuote "https://example.com/x"] ∧
      out.response.status = resp.status_code := by
  refine ⟨by decide, by decide, ?_⟩
  have hw1 : (_choose_endpoint [⟨some w⟩] "random" idx rnd).1 = some w := by
    simp [_choose_endpoint, Nat.mod_one]
  have he := forwardRequest_eq_withWorker reqFooQuery [⟨some w⟩] "random" idx rnd
    (.ok resp) "https://example.com/x" (by decide) w hw1 hw
  have hb : requestBodyData reqFooQuery = some none := by decide
  refine ⟨okOutcome "https://example.com/x" w
    (mkOutbound reqFooQuery "https://example.com/x" w none) resp
    (_choose_endpoint [⟨some w⟩] "random" idx rnd).2, ?_, rfl, rfl⟩
  rw [he]
  simp [forwardWithWorker, hb, mkOutbound]

/-- Witness for C7 (amended) at a concrete worker and 200 response. -/
theorem foo_param_roundtrip_amended_witness :
    extractTarget reqFooQuery = some "https://example.com/x" ∧
    ∃ out, forwardRequest reqFooQuery [⟨some "https://w.example/"⟩] "random" 0 0
        (.ok respOkW) = some out ∧
      out.outbound.map OutboundRequest.url =
        ["https://w.example/" ++ "?url=" ++ pyQuote "https://example.com/x"] ∧
      out.response.status = 200 := by
  obtain ⟨ha, _, out, h1, h2, h3⟩ :=
    foo_param_roundtrip_amended "https://w.example/" (by decide) 0 0 respOkW
  exact ⟨ha, out, h1, h2, h3⟩

/-- The 400 outcome of a malformed CONNECT target (flareprox.py:1169-1173). -/
def connect400Outcome : ConnectOutcome :=
  { status := 400, dialAttempted := false, tunnelEstablished := false,
    endpointCalls := [], logBytes := 0 }

/-- The 502 outcome of a failed CONNECT dial (flareprox.py:1177-1181). -/
def connect502Outcome : ConnectOutcome :=
  { status := 502, dialAttempted := true, tunnelEstablished := false,
    endpointCalls := [], logBytes := 0 }

/-- Claim C8: a CONNECT whose target does not parse as `host:port`
(missing colon or non-numeric port) draws a 400 with no socket opened
and 0 bytes logged; a CONNECT whose target parses but whose direct dial
fails draws a 502 with 0 bytes logged; in both cases no pool endpoint is
contacted. -/
theorem connect_failure_handling (path : String) :
    (connectParseTarget path = none →
       ∀ (dial : DialResult) (rb : Nat),
         do_CONNECT path dial rb = connect400Outcome) ∧
    (∀ hp, connectParseTarget path = some hp →
       ∀ (msg : String) (rb : Nat),
         do_CONNECT path (.err msg) rb = connect502Outcome) ∧
    connect400Outcome.status = 400 ∧
    connect400Outcome.dialAttempted = false ∧
    connect400Outcome.logBytes = 0 ∧
    connect400Outcome.endpointCalls = [] ∧
    connect502Outcome.status = 502 ∧
    connect502Outcome.logBytes = 0 ∧
    connect502Outcome.endpointCalls = [] := by
  refine ⟨?_, ?_, rfl, rfl, rfl, rfl, rfl, rfl, rfl⟩
  · intro h dial rb
    simp [do_CONNECT, h, connect400Outcome]
  · intro hp h msg rb
    simp [do_CONNECT, h, connect502Outcome]

/-- Witness for C8: a colon-less target draws the 400 outcome; a valid
`host:port` whose dial times out draws the 502 outcome. -/
theorem connect_failure_handling_witness :
    do_CONNECT "example.com" DialResult.ok 7 = connect400Outcome ∧
    do_CONNECT "db.example:5432" (.err "timed out") 7 = connect502Outcome := by
  constructor
  · exact (connect_failure_handling "example.com").1 (by decide) DialResult.ok 7
  · exact (connect_failure_handling "db.example:5432").2.1 ("db.example", 5432)
      (by decide) "timed out" 7

/-- Stop outcome when no (valid) PID marker is found. -/
def stopReportNoPid (marker : Option String) : StopOutcome :=
  { message := "No PID file found", killAttempts := [], marker := marker }

/-- Stop outcome after a delivered termination signal. -/
def stopReportStopped (pid : Int) : StopOutcome :=
  { message := "Server stopped", killAttempts := [pid], marker := none }

/-- Stop outcome after a failed `os.kill`. -/
def stopReportFailed (pid : Int) (e : String) (marker : Option String) : StopOutcome :=
  { message := "Failed to stop server: " ++ e, killAttempts := [pid], marker := marker }

/-- Claim C9: with the marker file absent, stop reports not-running and
signals nothing; with a marker recording a (non-zero) pid, stop signals
that pid and then removes the marker; when signalling fails, stop
reports the failure and leaves the marker file in place. -/
theorem serve_stop_behavior :
    (∀ kill : Int → KillResult, serve_stop none kill = stopReportNoPid none) ∧
    (∀ (content : String) (pid : Int) (kill : Int → KillResult),
       readPidFile (some content) = some pid → pid ≠ 0 →
       (kill pid = .ok → serve_stop (some content) kill = stopReportStopped pid) ∧
       (∀ e, kill pid = .err e →
          serve_stop (some content) kill = stopReportFailed pid e (some content))) ∧
    (stopReportNoPid none).killAttempts = [] ∧
    (∀ pid, (stopReportStopped pid).killAttempts = [pid] ∧
       (stopReportStopped pid).marker = none) ∧
    (∀ pid e m, (stopReportFailed pid e m).marker = m) := by
  refine ⟨fun kill => rfl, ?_, rfl, fun _ => ⟨rfl, rfl⟩, fun _ _ _ => rfl⟩
  intro content pid kill hread hpid
  constructor
  · intro hk
    simp [serve_stop, hread, hpid, hk, stopReportStopped]
  · intro e hk
    simp [serve_stop, hread, hpid, hk, stopReportFailed]

/-- Witness for C9 on a marker recording pid 1234, a delivered signal,
and a failed signal. -/
theorem serve_stop_behavior_witness :
    serve_stop none (fun _ => .ok) = stopReportNoPid none ∧
    serve_stop (some "1234") (fun _ => .ok) = stopReportStopped 1234 ∧
    serve_stop (some "1234") (fun _ => .err "No such process") =
      stopReportFailed 1234 "No such process" (some "1234") := by
  have h := (serve_stop_behavior.2.1) "1234" 1234 (fun _ => KillResult.ok)
    (by decide) (by decide)
  have h2 := (serve_stop_behavior.2.1) "1234" 1234
    (fun _ => KillResult.err "No such process") (by decide) (by decide)
  exact ⟨serve_stop_behavior.1 (fun _ => .ok), h.1 rfl, h2.2 "No such process" rfl⟩
